import Mathlib

/-!
# Verification of the multi-tool weather/time agent

A shallow embedding of the Python sources under `multi-tool-agent/`
(`agent.py`, `services/weather.py`, `services/time_service.py`,
`services/utils.py`) together with proofs about the properties of its
tool surface.

Modelling conventions:

* External collaborators (the geocoder, the timezone database, the
  weather provider, the system clock) are parameters of the embedded
  functions: `TimeEnv`, `GeoEnv`, a `fetch` function for the weather
  provider, and explicit clock-read arguments.  Each call of Python's
  `datetime.datetime.now(...)` is one clock read, passed explicitly.
* Instants and wall-clock timestamps are modelled as integer seconds;
  a timezone is an offset function `Int → Int` (seconds of UTC offset
  at a given instant, which lets the model express DST).  ISO strings,
  `strftime` renderings and the `%z` offset string of the source are
  represented by the integer values they denote; where the source
  interpolates them into reports the model renders them with
  `toString`.
* Python numbers in weather payloads are modelled as `ℚ`.
* Python dictionaries whose key sets vary between code paths
  (the weather payloads) are modelled as association lists
  `List (String × WVal)`; dictionaries with a fixed shape are
  modelled as structures with `Option` fields for keys that are
  absent on some paths.
-/

namespace MultiToolAgent

/-! ## Python string primitives (ASCII semantics, as used by the sources) -/

/-- Python `str.strip()`: remove leading and trailing whitespace. -/
def pyStrip (s : String) : String :=
  String.mk (((s.data.dropWhile Char.isWhitespace).reverse.dropWhile Char.isWhitespace).reverse)

/-- Python `str.lower()` on the ASCII range. -/
def pyLower (s : String) : String := String.mk (s.data.map Char.toLower)

/-- One character of Python `str.title()`: the first character of an
alphabetic run is uppercased, later characters of the run are lowercased. -/
def titleChar (prevAlpha : Bool) (c : Char) : Char :=
  if c.isAlpha then (if prevAlpha then c.toLower else c.toUpper) else c

/-- Worker for `pyTitle`, tracking whether the previous character was alphabetic. -/
def titleAux : Bool → List Char → List Char
  | _, [] => []
  | prevAlpha, c :: cs => titleChar prevAlpha c :: titleAux c.isAlpha cs

/-- Python `str.title()` on the ASCII range. -/
def pyTitle (s : String) : String := String.mk (titleAux false s.data)

/-! ## The result envelope

Every tool returns a Python dict with a `status` key and, depending on
the status, `report`/`data` or `error_message` keys.  `Option` fields
model key presence. -/

/-- The uniform result envelope of the tool surface. -/
structure Envelope (α : Type) where
  status : String
  report : Option String := none
  error_message : Option String := none
  data : Option α := none
deriving DecidableEq

/-- An error envelope: `{"status": "error", "error_message": msg}`. -/
def errEnv {α : Type} (msg : String) : Envelope α :=
  { status := "error", error_message := some msg }

/-- The envelope invariant of the spec: status is `success` or `error`;
a success envelope has a report and a data payload and no error message;
an error envelope has an error message and neither report nor data. -/
def EnvelopeOk {α : Type} (e : Envelope α) : Prop :=
  (e.status = "success" ∨ e.status = "error")
  ∧ (e.status = "success" → e.report.isSome ∧ e.data.isSome ∧ e.error_message = none)
  ∧ (e.status = "error" → e.error_message.isSome ∧ e.report = none ∧ e.data = none)

/-! ## Weather service (`services/weather.py`)

The OpenWeatherMap transport is a parameter: `hasKey` models
`Config.OPENWEATHER_API_KEY` being configured, and `fetch` models
`_make_api_request` (returning `none` on network failure, as the
source does).  Mandatory numeric subfields of a provider response are
modelled as present whenever their parent object is present; objects
and keys the source accesses with `[]`/`.get` guards are `Option`s. -/

/-- A value of a weather data payload (a Python number, string or `None`). -/
inductive WVal where
  | num (q : ℚ)
  | str (s : String)
  | null
deriving DecidableEq

/-- A weather data payload: a Python dict, as an association list. -/
abbrev WeatherPayload := List (String × WVal)

/-- The `main` object of a current-weather provider response. -/
structure OWMMain where
  temp : ℚ
  feels_like : ℚ
  humidity : ℚ
  pressure : Option ℚ
deriving DecidableEq

/-- One element of the `weather` array of a provider response. -/
structure OWMWeatherItem where
  description : String
deriving DecidableEq

/-- The `wind` object of a current-weather provider response. -/
structure OWMWind where
  speed : Option ℚ
deriving DecidableEq

/-- A current-weather provider response. -/
structure OWMCurrent where
  cod : Int
  message : Option String
  main : Option OWMMain
  weather : List OWMWeatherItem
  wind : Option OWMWind
  visibility : Option ℚ
deriving DecidableEq

/-- One entry of the `list` array of a forecast provider response. -/
structure OWMForecastItem where
  dt_txt : Option String
  temp : Option ℚ
  weather : List OWMWeatherItem
deriving DecidableEq

/-- A forecast provider response. -/
structure OWMForecastResp where
  cod : String
  list : List OWMForecastItem
deriving DecidableEq

/-- Rendering of a Python number into a report string (the source's
`f"{x:.1f}"` and friends are abstracted to `toString`). -/
def fmtQ (q : ℚ) : String := toString q

namespace WeatherService

/-- `WeatherService._get_temperature_unit`. -/
def get_temperature_unit (units : String) : String :=
  if units = "metric" then "C"
  else if units = "imperial" then "F"
  else if units = "kelvin" then "K"
  else "C"

/-- `WeatherService._get_speed_unit`. -/
def get_speed_unit (units : String) : String :=
  if units = "metric" then "m/s"
  else if units = "imperial" then "mph"
  else if units = "kelvin" then "m/s"
  else "m/s"

/-- `WeatherService._format_weather_response`: shape-check the provider
payload and build the success envelope; a missing `main` object or empty
`weather` array raises `KeyError`/`IndexError` in the source and yields
the parse-error envelope. -/
def format_weather_response (resp : OWMCurrent) (city units : String) : Envelope WeatherPayload :=
  match resp.main, resp.weather with
  | some main, w :: _ =>
    let windSpeed : ℚ := match resp.wind with
      | some wi => wi.speed.getD 0
      | none => 0
    let tempUnit := get_temperature_unit units
    let speedUnit := get_speed_unit units
    let report0 :=
      "Current weather in " ++ pyTitle city ++ ":\nTemperature: " ++ fmtQ main.temp
        ++ "°" ++ tempUnit ++ " (feels like " ++ fmtQ main.feels_like ++ "°" ++ tempUnit
        ++ ")\nCondition: " ++ pyTitle w.description
        ++ "\nHumidity: " ++ fmtQ main.humidity ++ "%\nWind: " ++ fmtQ windSpeed ++ " " ++ speedUnit
    let report1 := match resp.visibility with
      | some v => report0 ++ "\nVisibility: " ++ fmtQ (v / 1000) ++ " km"
      | none => report0
    let report2 := match main.pressure with
      | some p => if p = 0 then report1 else report1 ++ "\nPressure: " ++ fmtQ p ++ " hPa"
      | none => report1
    { status := "success"
      report := some report2
      data := some [("temperature", .num main.temp), ("feels_like", .num main.feels_like),
                    ("condition", .str w.description), ("humidity", .num main.humidity),
                    ("wind_speed", .num windSpeed),
                    ("pressure", match main.pressure with | some p => .num p | none => .null),
                    ("units", .str units)] }
  | _, _ => errEnv "Failed to parse weather data"

/-- One entry of the fixed offline table of `WeatherService._get_mock_weather`. -/
structure MockEntry where
  temp : ℚ
  condition : String
  humidity : ℚ
  wind_speed : ℚ
deriving DecidableEq

/-- The fixed offline table (`mock_data`), keyed by lowercase city name,
in the source's insertion order. -/
def mock_data : List (String × MockEntry) :=
  [("new york", { temp := 22.5, condition := "partly cloudy", humidity := 65, wind_speed := 3.2 }),
   ("london", { temp := 15.8, condition := "overcast", humidity := 78, wind_speed := 2.1 }),
   ("lagos", { temp := 31.3, condition := "sunny", humidity := 55, wind_speed := 1.8 }),
   ("paris", { temp := 18.7, condition := "light rain", humidity := 82, wind_speed := 2.5 }),
   ("sydney", { temp := 24.1, condition := "clear sky", humidity := 60, wind_speed := 4.1 })]

/-- The data payload built from a mock entry: in the source the raw
mock dict itself is returned, so its keys are `temp`, `condition`,
`humidity` and `wind_speed`. -/
def mockPayload (e : MockEntry) : WeatherPayload :=
  [("temp", .num e.temp), ("condition", .str e.condition),
   ("humidity", .num e.humidity), ("wind_speed", .num e.wind_speed)]

/-- `WeatherService._get_mock_weather`. -/
def get_mock_weather (city : String) : Envelope WeatherPayload :=
  match mock_data.lookup (pyLower city) with
  | some e =>
    { status := "success"
      report := some ("Current weather in " ++ pyTitle city ++ " (Demo Data):\nTemperature: "
        ++ fmtQ e.temp ++ "°C\nCondition: " ++ pyTitle e.condition
        ++ "\nHumidity: " ++ fmtQ e.humidity ++ "%\nWind: " ++ fmtQ e.wind_speed
        ++ " m/s\nNote: This is demo data. Set OPENWEATHER_API_KEY for real-time data.")
      data := some (mockPayload e) }
  | none =>
    errEnv ("Demo weather data not available for '" ++ city ++ "'. Supported cities: "
      ++ pyTitle (String.intercalate ", " (mock_data.map Prod.fst)))

/-- `WeatherService.get_current_weather`. -/
def get_current_weather (hasKey : Bool) (fetch : String → String → Option OWMCurrent)
    (city units : String) : Envelope WeatherPayload :=
  if hasKey = false then get_mock_weather city
  else
    match fetch city units with
    | none => errEnv ("Failed to fetch weather data for '" ++ city
        ++ "'. Please check the city name and try again.")
    | some resp =>
      if resp.cod ≠ 200 then
        errEnv ((resp.message).getD ("Weather data not available for '" ++ city ++ "'"))
      else format_weather_response resp city units

/-- Python's slice `l[:days*8:8]`: every 8th entry, `days` entries at most. -/
def sliceStep8 (l : List OWMForecastItem) (days : ℕ) : List OWMForecastItem :=
  (List.range days).filterMap (fun i => l.get? (8 * i))

/-- One report line of `_format_forecast_response`; `none` when a field the
source indexes into is missing (`KeyError`/`IndexError`). -/
def forecastLine (tempUnit : String) (i : ℕ) (it : OWMForecastItem) : Option String :=
  match it.dt_txt, it.temp, it.weather with
  | some dtxt, some t, w :: _ =>
    some ("Day " ++ toString (i + 1) ++ " (" ++ ((dtxt.splitOn " ").headD "") ++ "): "
      ++ fmtQ t ++ "°" ++ tempUnit ++ ", " ++ pyTitle w.description)
  | _, _, _ => none

/-- The data payload of a successful forecast. -/
structure ForecastData where
  forecasts : List OWMForecastItem
  units : String
deriving DecidableEq

/-- `WeatherService._format_forecast_response`. -/
def format_forecast_response (resp : OWMForecastResp) (city units : String) (days : ℕ) :
    Envelope ForecastData :=
  let forecasts := sliceStep8 resp.list days
  let tempUnit := get_temperature_unit units
  match forecasts.enum.mapM (fun p => forecastLine tempUnit p.1 p.2) with
  | some lines =>
    { status := "success"
      report := some (pyStrip ("Weather forecast for " ++ pyTitle city ++ ":\n"
        ++ String.join (lines.map (· ++ "\n"))))
      data := some { forecasts := forecasts, units := units } }
  | none => errEnv "Failed to parse forecast data"

/-- `WeatherService.get_weather_forecast`.  `fetchF` is given the city, the
units and the `cnt` request parameter `min(days*8, 40)`. -/
def get_weather_forecast (hasKey : Bool)
    (fetchF : String → String → Int → Option OWMForecastResp)
    (city units : String) (days : Int) : Envelope ForecastData :=
  if hasKey = false then
    errEnv ("Weather forecast requires an API key. Please set OPENWEATHER_API_KEY "
      ++ "environment variable to get forecasts, or use get_weather() for current "
      ++ "conditions with demo data.")
  else
    match fetchF city units (min (days * 8) 40) with
    | none => errEnv ("Failed to fetch forecast data for '" ++ city ++ "'")
    | some resp =>
      if resp.cod ≠ "200" then errEnv ("Failed to fetch forecast data for '" ++ city ++ "'")
      else format_forecast_response resp city units days.toNat

end WeatherService

/-! ## Time service (`services/time_service.py`)

`TimeEnv.resolveTz` models `location_utils.get_timezone` (geocoding a
city and looking up the timezone of its coordinates; `none` covers both
a failed geocode and a missing timezone).  `TimeEnv.tzdb` models
`pytz.timezone`: `none` is `UnknownTimeZoneError`, and a known timezone
is its UTC-offset function (seconds of offset at a given instant). -/

/-- The external location/timezone collaborators of the time service. -/
structure TimeEnv where
  resolveTz : String → Option String
  tzdb : String → Option (Int → Int)

/-- The data payload of a successful `get_current_time` (ISO strings and
`strftime` renderings represented by the integer values they denote). -/
structure TimeData where
  city : String
  timezone : String
  local_time : Int
  utc_time : Int
  formatted_time : Int
  day_of_week : Int
  utc_offset : Int
deriving DecidableEq

/-- Seconds-to-fractional-hours, the source's `total_seconds() / 3600`. -/
def hoursFromSeconds (s : Int) : ℚ := (s : ℚ) / 3600

namespace TimeService

/-- `TimeService._format_standard_time`. -/
def format_standard_time (city : String) (localWall : Int) (tzStr : String) : String :=
  "The current time in " ++ pyTitle city ++ " is " ++ toString localWall ++ " (" ++ tzStr ++ ")"

/-- `TimeService._format_detailed_time`. -/
def format_detailed_time (city : String) (localWall offsetSec utcWall : Int) (tzStr : String) :
    String :=
  "Time information for " ++ pyTitle city ++ ":\nLocal time: " ++ toString localWall
    ++ "\nTimezone: " ++ tzStr ++ "\nUTC offset: UTC" ++ toString offsetSec
    ++ "\nUTC time: " ++ toString utcWall

/-- `TimeService._format_utc_time`. -/
def format_utc_time (city : String) (localWall offsetSec utcWall : Int) : String :=
  "Time in " ++ pyTitle city ++ ":\nLocal: " ++ toString localWall
    ++ " (" ++ toString offsetSec ++ ")\nUTC: " ++ toString utcWall

/-- `TimeService.get_current_time`.  `t1` is the clock read of
`datetime.datetime.now(tz)` and `t2` the separate clock read of
`datetime.datetime.now(pytz.UTC)`. -/
def get_current_time (env : TimeEnv) (t1 t2 : Int) (city format_type : String) :
    Envelope TimeData :=
  match env.resolveTz city with
  | none => errEnv ("Could not determine timezone for '" ++ city
      ++ "'. Please check the city name and try again.")
  | some tzStr =>
    match env.tzdb tzStr with
    | none => errEnv ("Unknown timezone '" ++ tzStr ++ "' for city '" ++ city ++ "'")
    | some offsetAt =>
      let localWall := t1 + offsetAt t1
      let report :=
        if format_type = "detailed" then
          format_detailed_time city localWall (offsetAt t1) t2 tzStr
        else if format_type = "utc" then
          format_utc_time city localWall (offsetAt t1) t2
        else format_standard_time city localWall tzStr
      { status := "success"
        report := some report
        data := some { city := city, timezone := tzStr, local_time := localWall,
                       utc_time := t2, formatted_time := localWall,
                       day_of_week := (localWall / 86400) % 7, utc_offset := offsetAt t1 } }

/-- The data payload of `get_time_difference`; the short-circuit result of
the tool layer populates only `city1`, `city2` and `difference_hours`, so
the other keys are `Option`s. -/
structure TimeDiffData where
  city1 : String
  city2 : String
  timezone1 : Option String := none
  timezone2 : Option String := none
  time1 : Option Int := none
  time2 : Option Int := none
  difference_hours : ℚ
deriving DecidableEq

/-- Line 128 of `time_service.py`: the city rendered as being ahead. -/
def aheadCity (city1 city2 : String) (difference : ℚ) : String :=
  if 0 < difference then pyTitle city1 else pyTitle city2

/-- Line 129 of `time_service.py`: the city rendered as being behind. -/
def behindCity (city1 city2 : String) (difference : ℚ) : String :=
  if 0 < difference then pyTitle city2 else pyTitle city1

/-- The rendered magnitude of a time difference (`hours_diff` is the
absolute difference; Python's `int()` truncation is `Rat.floor` on this
non-negative argument). -/
def diffMagnitude (hoursDiff : ℚ) : String :=
  if hoursDiff = (⌊hoursDiff⌋ : ℚ) then
    toString ⌊hoursDiff⌋ ++ " hour" ++ (if hoursDiff ≠ 1 then "s" else "")
  else
    let hours := ⌊hoursDiff⌋
    let minutes := ⌊(hoursDiff - (hours : ℚ)) * 60⌋
    toString hours ++ " hour" ++ (if hours ≠ 1 then "s" else "")
      ++ " and " ++ toString minutes ++ " minute" ++ (if minutes ≠ 1 then "s" else "")

/-- `TimeService.get_time_difference`.  `t` is the single clock read
`datetime.datetime.now(pytz.UTC)`; both offsets are taken at `t`. -/
def get_time_difference (env : TimeEnv) (t : Int) (city1 city2 : String) :
    Envelope TimeDiffData :=
  match env.resolveTz city1 with
  | none => errEnv ("Could not determine timezone for '" ++ city1 ++ "'")
  | some tz1 =>
    match env.resolveTz city2 with
    | none => errEnv ("Could not determine timezone for '" ++ city2 ++ "'")
    | some tz2 =>
      match env.tzdb tz1, env.tzdb tz2 with
      | some f1, some f2 =>
        let offset1 := hoursFromSeconds (f1 t)
        let offset2 := hoursFromSeconds (f2 t)
        let difference := offset1 - offset2
        let time1 := t + f1 t
        let time2 := t + f2 t
        let baseReport :=
          if difference = 0 then
            pyTitle city1 ++ " and " ++ pyTitle city2 ++ " are in the same time zone."
          else
            aheadCity city1 city2 difference ++ " is " ++ diffMagnitude |difference|
              ++ " ahead of " ++ behindCity city1 city2 difference ++ "."
        { status := "success"
          report := some (baseReport
            ++ "\nCurrent time in " ++ pyTitle city1 ++ ": " ++ toString time1
            ++ "\nCurrent time in " ++ pyTitle city2 ++ ": " ++ toString time2)
          data := some { city1 := city1, city2 := city2,
                         timezone1 := some tz1, timezone2 := some tz2,
                         time1 := some time1, time2 := some time2,
                         difference_hours := difference } }
      | _, _ => errEnv ("Failed to calculate time difference between '" ++ city1
          ++ "' and '" ++ city2 ++ "'")

/-- One entry of the world clock's `results` list. -/
structure WCEntry where
  city : String
  time : Int
  timezone : String
  day : Int
deriving DecidableEq

/-- The data payload of a successful `get_world_clock`. -/
structure WorldClockData where
  results : List WCEntry
  errors : List String
  total_cities : ℕ
  successful_cities : ℕ
deriving DecidableEq

/-- The accumulation loop of `TimeService.get_world_clock`: per city, a
`get_current_time` call (the `i`-th city uses the clock reads
`clk (2*i)` and `clk (2*i+1)` of the clock-read stream `clk`),
appending successes to `results` and failures to `errors`. -/
def worldClockLists (env : TimeEnv) (clk : ℕ → Int) : ℕ → List String → List WCEntry × List String
  | _, [] => ([], [])
  | i, city :: rest =>
    let ti := get_current_time env (clk (2 * i)) (clk (2 * i + 1)) city "standard"
    let acc := worldClockLists env clk (i + 1) rest
    match ti.status == "success", ti.data with
    | true, some d =>
      ({ city := pyTitle city, time := d.formatted_time, timezone := d.timezone,
         day := d.day_of_week } :: acc.1, acc.2)
    | _, _ => (acc.1, (city ++ ": " ++ ti.error_message.getD "") :: acc.2)

/-- `TimeService.get_world_clock`. -/
def get_world_clock (env : TimeEnv) (clk : ℕ → Int) (cities : List String) :
    Envelope WorldClockData :=
  if cities.isEmpty then errEnv "Please provide a list of cities"
  else
    let pair := worldClockLists env clk 0 cities
    if pair.1.isEmpty then
      errEnv ("Could not get time for any cities. Errors: " ++ String.intercalate "; " pair.2)
    else
      let body := "World Clock:\n" ++ String.join (pair.1.map
        (fun r => r.city ++ ": " ++ toString r.time ++ " (" ++ toString r.day ++ ")\n"))
      let body2 := if pair.2.isEmpty then body
        else body ++ "\nErrors: " ++ String.intercalate "; " pair.2
      { status := "success"
        report := some (pyStrip body2)
        data := some { results := pair.1, errors := pair.2,
                       total_cities := cities.length, successful_cities := pair.1.length } }

end TimeService

/-! ## Location utils (`services/utils.py`)

`GeoEnv.geocode` models the Nominatim geocoder (`none` covers "no
match" and the caught timeout/unavailable exceptions), and
`GeoEnv.timezoneAt` models `TimezoneFinder.timezone_at`. -/

/-- A geocoder hit: coordinates plus formatted address. -/
structure GeoLoc where
  latitude : ℚ
  longitude : ℚ
  address : String
deriving DecidableEq

/-- The external geocoding collaborators of `LocationUtils`. -/
structure GeoEnv where
  geocode : String → Option GeoLoc
  timezoneAt : ℚ → ℚ → Option String

/-- The success payload of `LocationUtils.get_city_info`. -/
structure CityInfoData where
  city : String
  latitude : ℚ
  longitude : ℚ
  timezone : Option String
  full_address : String
  country : String
deriving DecidableEq

/-- `LocationUtils.get_city_info` (success dict or error message). -/
def utilsGetCityInfo (env : GeoEnv) (city : String) : Except String CityInfoData :=
  match env.geocode city with
  | none => .error ("Could not find location information for '" ++ city ++ "'")
  | some loc =>
    let addressParts := loc.address.splitOn ", "
    .ok { city := city, latitude := loc.latitude, longitude := loc.longitude,
          timezone := env.timezoneAt loc.latitude loc.longitude,
          full_address := loc.address,
          country := addressParts.getLastD "Unknown" }

/-! ## Tool surface (`agent.py`) -/

namespace Agent

/-- `agent.get_weather`. -/
def get_weather (hasKey : Bool) (fetch : String → String → Option OWMCurrent)
    (city units : String) : Envelope WeatherPayload :=
  if pyStrip city = "" then
    errEnv "City name cannot be empty. Please provide a valid city name."
  else
    let u := pyLower units
    let u2 := if u = "metric" ∨ u = "imperial" ∨ u = "kelvin" then u else "metric"
    WeatherService.get_current_weather hasKey fetch (pyStrip city) u2

/-- `agent.get_weather_forecast` (`days` arrives as a Python `int`, so the
`int(days)` conversion cannot fail; it is then clamped into `[1, 5]`). -/
def get_weather_forecast (hasKey : Bool)
    (fetchF : String → String → Int → Option OWMForecastResp)
    (city : String) (days : Int) (units : String) : Envelope WeatherService.ForecastData :=
  if pyStrip city = "" then
    errEnv "City name cannot be empty. Please provide a valid city name."
  else
    let d := min (max days 1) 5
    let u := pyLower units
    let u2 := if u = "metric" ∨ u = "imperial" ∨ u = "kelvin" then u else "metric"
    WeatherService.get_weather_forecast hasKey fetchF (pyStrip city) u2 d

/-- `agent.get_current_time`. -/
def get_current_time (env : TimeEnv) (t1 t2 : Int) (city format_type : String) :
    Envelope TimeData :=
  if pyStrip city = "" then
    errEnv "City name cannot be empty. Please provide a valid city name."
  else
    let f := pyLower format_type
    let f2 := if f = "standard" ∨ f = "detailed" ∨ f = "utc" then f else "standard"
    TimeService.get_current_time env t1 t2 (pyStrip city) f2

/-- `agent.get_time_difference`. -/
def get_time_difference (env : TimeEnv) (t : Int) (city1 city2 : String) :
    Envelope TimeService.TimeDiffData :=
  if pyStrip city1 = "" then
    errEnv "First city name cannot be empty. Please provide valid city names."
  else if pyStrip city2 = "" then
    errEnv "Second city name cannot be empty. Please provide valid city names."
  else if pyLower (pyStrip city1) = pyLower (pyStrip city2) then
    { status := "success"
      report := some ("Both cities (" ++ pyTitle (pyStrip city1)
        ++ ") are the same, so there is no time difference.")
      data := some { city1 := pyStrip city1, city2 := pyStrip city2, difference_hours := 0 } }
  else TimeService.get_time_difference env t (pyStrip city1) (pyStrip city2)

/-- `agent.get_world_clock`. -/
def get_world_clock (env : TimeEnv) (clk : ℕ → Int) (cities : List String) :
    Envelope TimeService.WorldClockData :=
  if cities.isEmpty then
    errEnv "Please provide a list of cities. Example: ['New York', 'London', 'Tokyo']"
  else
    let cleanCities := (cities.filter (fun c => pyStrip c != "")).map pyStrip
    if cleanCities.isEmpty then
      errEnv "No valid city names provided. Please ensure city names are not empty."
    else if cleanCities.length > 10 then
      let result := TimeService.get_world_clock env clk (cleanCities.take 10)
      if result.status = "success" then
        { result with report :=
            result.report.map (· ++ "\n\nNote: Limited to first 10 cities out of "
              ++ toString cities.length ++ " provided.") }
      else result
    else TimeService.get_world_clock env clk cleanCities

/-- `agent.get_city_info` (note: the report titles the *unstripped* input). -/
def get_city_info (env : GeoEnv) (city : String) : Envelope CityInfoData :=
  if pyStrip city = "" then
    errEnv "City name cannot be empty. Please provide a valid city name."
  else
    match utilsGetCityInfo env (pyStrip city) with
    | .ok info =>
      { status := "success"
        report := some ("Information for " ++ pyTitle city ++ ":\nCoordinates: "
          ++ toString info.latitude ++ ", " ++ toString info.longitude
          ++ "\nTimezone: " ++ info.timezone.getD "None"
          ++ "\nFull address: " ++ info.full_address
          ++ "\nCountry: " ++ info.country)
        data := some info }
    | .error e => errEnv e

end Agent

/-! ## Derived observables and concrete environments used in the theorems -/

/-- Whether a city's time lookup succeeds in `TimeService.get_current_time`:
its timezone resolves and the timezone database knows the identifier. -/
def cityTimeOk (env : TimeEnv) (city : String) : Bool :=
  match env.resolveTz city with
  | none => false
  | some tz => (env.tzdb tz).isSome

/-- The error message `TimeService.get_current_time` produces for a failing city. -/
def cityTimeErrMsg (env : TimeEnv) (city : String) : String :=
  match env.resolveTz city with
  | none => "Could not determine timezone for '" ++ city
      ++ "'. Please check the city name and try again."
  | some tz => "Unknown timezone '" ++ tz ++ "' for city '" ++ city ++ "'"

/-- A concrete time environment for witnesses: Lagos at UTC+1, London at
UTC+0, and a city whose resolved timezone the timezone database rejects. -/
def demoTimeEnv : TimeEnv :=
  { resolveTz := fun c =>
      if c = "Lagos" then some "Africa/Lagos"
      else if c = "London" then some "Europe/London"
      else if c = "Atlantis" then some "Atlantis/Nowhere"
      else none
    tzdb := fun z =>
      if z = "Africa/Lagos" then some (fun _ => 3600)
      else if z = "Europe/London" then some (fun _ => 0)
      else none }

/-- A concrete geocoding environment for witnesses. -/
def demoGeoEnv : GeoEnv :=
  { geocode := fun c =>
      if c = "Lagos" then some { latitude := 13/2, longitude := 7/2, address := "Lagos, Nigeria" }
      else none
    timezoneAt := fun _ _ => some "Africa/Lagos" }

/-- A concrete weather provider for witnesses: always answers with a
well-formed current-weather payload. -/
def demoFetch : String → String → Option OWMCurrent := fun _ _ =>
  some { cod := 200, message := none,
         main := some { temp := 20, feels_like := 19, humidity := 50, pressure := some 1013 },
         weather := [{ description := "clear sky" }],
         wind := some { speed := some 3 }, visibility := some 10000 }

/-- The data payload `demoFetch` leads to on the live path with metric units. -/
def demoLivePayload : WeatherPayload :=
  [("temperature", .num 20), ("feels_like", .num 19), ("condition", .str "clear sky"),
   ("humidity", .num 50), ("wind_speed", .num 3), ("pressure", .num 1013),
   ("units", .str "metric")]

/-- The five lowercase keys of the offline mock table. -/
def mockCityNames : List String := ["new york", "london", "lagos", "paris", "sydney"]

/-- A twelve-city input list for the world-clock truncation witness. -/
def demo12 : List String :=
  ["Lagos", "London", "Lagos", "London", "Lagos", "London",
   "Lagos", "London", "Lagos", "London", "Lagos", "London"]

/-! ## Character-level lemmas -/

theorem charToNat_ofNat_valid (n : ℕ) (h : n.isValidChar) : (Char.ofNat n).toNat = n := by
  rw [Char.ofNat, dif_pos h]
  exact rfl

theorem charToNat_inj {a b : Char} (h : a.toNat = b.toNat) : a = b := by
  have := congrArg Char.ofNat h
  rwa [Char.ofNat_toNat, Char.ofNat_toNat] at this

theorem charToNat_toLower (c : Char) :
    c.toLower.toNat = if 65 ≤ c.toNat ∧ c.toNat ≤ 90 then c.toNat + 32 else c.toNat := by
  unfold Char.toLower
  dsimp only
  split
  · exact charToNat_ofNat_valid (c.toNat + 32) (Or.inl (by omega))
  · rfl

theorem charToNat_toUpper (c : Char) :
    c.toUpper.toNat = if 97 ≤ c.toNat ∧ c.toNat ≤ 122 then c.toNat - 32 else c.toNat := by
  unfold Char.toUpper
  dsimp only
  split
  · exact charToNat_ofNat_valid (c.toNat - 32) (Or.inl (by omega))
  · rfl

theorem charToLower_toUpper (c : Char) : c.toUpper.toLower = c.toLower := by
  apply charToNat_inj
  simp only [charToNat_toLower, charToNat_toUpper]
  split_ifs <;> omega

theorem charToLower_toLower (c : Char) : c.toLower.toLower = c.toLower := by
  apply charToNat_inj
  simp only [charToNat_toLower]
  split_ifs <;> omega

theorem charToLower_titleChar (b : Bool) (c : Char) :
    (titleChar b c).toLower = c.toLower := by
  unfold titleChar
  split_ifs with h1 h2
  · exact charToLower_toLower c
  · exact charToLower_toUpper c
  · rfl

theorem map_toLower_titleAux (l : List Char) :
    ∀ b : Bool, (titleAux b l).map Char.toLower = l.map Char.toLower := by
  induction l with
  | nil => intro b; rfl
  | cons c cs ih =>
    intro b
    simp only [titleAux, List.map_cons, charToLower_titleChar, ih]

/-- Python's `title()` does not change a string up to case:
lowercasing a titled string gives the lowercased string. -/
theorem pyLower_pyTitle (s : String) : pyLower (pyTitle s) = pyLower s := by
  unfold pyLower pyTitle
  exact congrArg String.mk (map_toLower_titleAux s.data false)

theorem pyTitle_ne_of_pyLower_ne {a b : String} (h : pyLower a ≠ pyLower b) :
    pyTitle a ≠ pyTitle b := by
  intro he
  exact h (by rw [← pyLower_pyTitle a, ← pyLower_pyTitle b, he])

/-! ## Envelope helper lemmas -/

theorem envelopeOk_errEnv {α : Type} (msg : String) :
    EnvelopeOk (errEnv (α := α) msg) := by
  refine ⟨Or.inr rfl, fun h => ?_, fun _ => ⟨rfl, rfl, rfl⟩⟩
  simp [errEnv] at h

theorem envelopeOk_mk {α : Type} (r : String) (d : α) :
    EnvelopeOk ({ status := "success", report := some r, data := some d } : Envelope α) := by
  refine ⟨Or.inl rfl, fun _ => ⟨rfl, rfl, rfl⟩, fun h => ?_⟩
  simp at h

theorem envelopeOk_map_report {α : Type} {e : Envelope α} (he : EnvelopeOk e)
    (hs : e.status = "success") (f : String → String) :
    EnvelopeOk ({ e with report := e.report.map f }) := by
  obtain ⟨hd, hsucc, herr⟩ := he
  refine ⟨Or.inl hs, fun _ => ?_, fun h => ?_⟩
  · obtain ⟨h1, h2, h3⟩ := hsucc hs
    exact ⟨by simpa using h1, h2, h3⟩
  · rw [show e.status = e.status from rfl] at hs
    simp only [hs] at h
    exact absurd h (by simp)

theorem envelopeOk_get_weather (hasKey : Bool) (fetch : String → String → Option OWMCurrent)
    (city units : String) : EnvelopeOk (Agent.get_weather hasKey fetch city units) := by
  unfold Agent.get_weather WeatherService.get_current_weather WeatherService.get_mock_weather
    WeatherService.format_weather_response
  repeat' (first | split | dsimp only)
  all_goals first
    | exact envelopeOk_errEnv _
    | exact envelopeOk_mk _ _

theorem envelopeOk_get_weather_forecast (hasKey : Bool)
    (fetchF : String → String → Int → Option OWMForecastResp)
    (city : String) (days : Int) (units : String) :
    EnvelopeOk (Agent.get_weather_forecast hasKey fetchF city days units) := by
  unfold Agent.get_weather_forecast WeatherService.get_weather_forecast
    WeatherService.format_forecast_response
  repeat' (first | split | dsimp only)
  all_goals first
    | exact envelopeOk_errEnv _
    | exact envelopeOk_mk _ _

theorem envelopeOk_time_svc (env : TimeEnv) (t1 t2 : Int) (city fmt : String) :
    EnvelopeOk (TimeService.get_current_time env t1 t2 city fmt) := by
  unfold TimeService.get_current_time
  repeat' (first | split | dsimp only)
  all_goals first
    | exact envelopeOk_errEnv _
    | exact envelopeOk_mk _ _

theorem envelopeOk_get_current_time (env : TimeEnv) (t1 t2 : Int) (city fmt : String) :
    EnvelopeOk (Agent.get_current_time env t1 t2 city fmt) := by
  unfold Agent.get_current_time
  split
  · exact envelopeOk_errEnv _
  · exact envelopeOk_time_svc _ _ _ _ _

theorem envelopeOk_get_time_difference (env : TimeEnv) (t : Int) (city1 city2 : String) :
    EnvelopeOk (Agent.get_time_difference env t city1 city2) := by
  unfold Agent.get_time_difference TimeService.get_time_difference
  repeat' (first | split | dsimp only)
  all_goals first
    | exact envelopeOk_errEnv _
    | exact envelopeOk_mk _ _

theorem envelopeOk_world_clock_svc (env : TimeEnv) (clk : ℕ → Int) (cities : List String) :
    EnvelopeOk (TimeService.get_world_clock env clk cities) := by
  unfold TimeService.get_world_clock
  repeat' (first | split | dsimp only)
  all_goals first
    | exact envelopeOk_errEnv _
    | exact envelopeOk_mk _ _

theorem envelopeOk_get_world_clock (env : TimeEnv) (clk : ℕ → Int) (cities : List String) :
    EnvelopeOk (Agent.get_world_clock env clk cities) := by
  unfold Agent.get_world_clock
  split
  · exact envelopeOk_errEnv _
  · dsimp only
    split
    · exact envelopeOk_errEnv _
    · split
      · split
        · next h => exact envelopeOk_map_report (envelopeOk_world_clock_svc _ _ _) h _
        · exact envelopeOk_world_clock_svc _ _ _
      · exact envelopeOk_world_clock_svc _ _ _

theorem envelopeOk_get_city_info (env : GeoEnv) (city : String) :
    EnvelopeOk (Agent.get_city_info env city) := by
  unfold Agent.get_city_info
  repeat' (first | split | dsimp only)
  all_goals first
    | exact envelopeOk_errEnv _
    | exact envelopeOk_mk _ _

/-! ## Claim theorems -/

/-- Claim C1: every operation of the tool surface, on every input, returns
an envelope whose status is `success` or `error`; a success envelope
carries a report and a data payload and no error message, and an error
envelope carries an error message and neither report nor data. -/
theorem claim_c1_envelope_invariant :
    (∀ hasKey fetch city units, EnvelopeOk (Agent.get_weather hasKey fetch city units))
    ∧ (∀ hasKey fetchF city days units,
        EnvelopeOk (Agent.get_weather_forecast hasKey fetchF city days units))
    ∧ (∀ env t1 t2 city fmt, EnvelopeOk (Agent.get_current_time env t1 t2 city fmt))
    ∧ (∀ env t city1 city2, EnvelopeOk (Agent.get_time_difference env t city1 city2))
    ∧ (∀ env clk cities, EnvelopeOk (Agent.get_world_clock env clk cities))
    ∧ (∀ env city, EnvelopeOk (Agent.get_city_info env city)) :=
  ⟨envelopeOk_get_weather, envelopeOk_get_weather_forecast, envelopeOk_get_current_time,
   envelopeOk_get_time_difference, envelopeOk_get_world_clock, envelopeOk_get_city_info⟩

/-- Witness for C1 at concrete inputs. -/
theorem claim_c1_envelope_invariant_witness :
    EnvelopeOk (Agent.get_weather false (fun _ _ => none) "london" "metric")
    ∧ EnvelopeOk (Agent.get_city_info demoGeoEnv "Lagos") :=
  ⟨claim_c1_envelope_invariant.1 false (fun _ _ => none) "london" "metric",
   claim_c1_envelope_invariant.2.2.2.2.2 demoGeoEnv "Lagos"⟩

theorem mock_lookup_isSome (k : String) :
    (WeatherService.mock_data.lookup k).isSome = true ↔ k ∈ mockCityNames := by
  by_cases h1 : k = "new york"
  · subst h1; decide
  by_cases h2 : k = "london"
  · subst h2; decide
  by_cases h3 : k = "lagos"
  · subst h3; decide
  by_cases h4 : k = "paris"
  · subst h4; decide
  by_cases h5 : k = "sydney"
  · subst h5; decide
  have hl : WeatherService.mock_data.lookup k = none := by
    simp [WeatherService.mock_data, List.lookup, beq_false_of_ne h1, beq_false_of_ne h2,
      beq_false_of_ne h3, beq_false_of_ne h4, beq_false_of_ne h5]
  rw [hl]
  simp [mockCityNames, h1, h2, h3, h4, h5]

/-- Claim C5: with no provider credential configured, `get_weather` with a
non-empty city succeeds exactly when the trimmed city name matches one of
the five mock cities case-insensitively; any other city gets an error
message naming the supported set. -/
theorem claim_c5_offline_mock_city_set (fetch : String → String → Option OWMCurrent)
    (city units : String) (h : pyStrip city ≠ "") :
    ((Agent.get_weather false fetch city units).status = "success"
      ↔ pyLower (pyStrip city) ∈ mockCityNames)
    ∧ (pyLower (pyStrip city) ∉ mockCityNames →
        (Agent.get_weather false fetch city units).error_message
          = some ("Demo weather data not available for '" ++ pyStrip city
              ++ "'. Supported cities: " ++ "New York, London, Lagos, Paris, Sydney")) := by
  have hmock : Agent.get_weather false fetch city units
      = WeatherService.get_mock_weather (pyStrip city) := by
    unfold Agent.get_weather WeatherService.get_current_weather
    rw [if_neg h]
    rfl
  rw [hmock]
  unfold WeatherService.get_mock_weather
  cases hk : WeatherService.mock_data.lookup (pyLower (pyStrip city)) with
  | some e =>
    have hin : pyLower (pyStrip city) ∈ mockCityNames :=
      (mock_lookup_isSome _).1 (by rw [hk]; rfl)
    exact ⟨⟨fun _ => hin, fun _ => rfl⟩, fun hnot => absurd hin hnot⟩
  | none =>
    have hnotin : pyLower (pyStrip city) ∉ mockCityNames := by
      intro hmem
      have := (mock_lookup_isSome (pyLower (pyStrip city))).2 hmem
      rw [hk] at this
      exact absurd this (by simp)
    refine ⟨⟨fun hs => ?_, fun hmem => absurd hmem hnotin⟩, fun _ => ?_⟩
    · exact absurd hs (by simp [errEnv])
    · show (errEnv _).error_message = some _
      unfold errEnv
      have ht : pyTitle (String.intercalate ", " (WeatherService.mock_data.map Prod.fst))
          = "New York, London, Lagos, Paris, Sydney" := by decide
      rw [ht]

/-- Witness for C5 at a mock city and a non-mock city. -/
theorem claim_c5_offline_mock_city_set_witness :
    (pyStrip "Lagos" ≠ "" ∧
      (((Agent.get_weather false demoFetch "Lagos" "metric").status = "success"
        ↔ pyLower (pyStrip "Lagos") ∈ mockCityNames)
      ∧ (pyLower (pyStrip "Lagos") ∉ mockCityNames →
          (Agent.get_weather false demoFetch "Lagos" "metric").error_message
            = some ("Demo weather data not available for '" ++ pyStrip "Lagos"
                ++ "'. Supported cities: " ++ "New York, London, Lagos, Paris, Sydney"))))
    ∧ (pyStrip "Tokyo" ≠ "" ∧
      (((Agent.get_weather false demoFetch "Tokyo" "metric").status = "success"
        ↔ pyLower (pyStrip "Tokyo") ∈ mockCityNames)
      ∧ (pyLower (pyStrip "Tokyo") ∉ mockCityNames →
          (Agent.get_weather false demoFetch "Tokyo" "metric").error_message
            = some ("Demo weather data not available for '" ++ pyStrip "Tokyo"
                ++ "'. Supported cities: " ++ "New York, London, Lagos, Paris, Sydney")))) :=
  ⟨⟨by decide, claim_c5_offline_mock_city_set demoFetch "Lagos" "metric" (by decide)⟩,
   ⟨by decide, claim_c5_offline_mock_city_set demoFetch "Tokyo" "metric" (by decide)⟩⟩

/-- Claim C6: with no provider credential configured, `get_weather_forecast`
returns an error for every non-empty city, days and units: there is no
offline fallback for forecasts. -/
theorem claim_c6_forecast_requires_key (fetchF : String → String → Int → Option OWMForecastResp)
    (city : String) (days : Int) (units : String) (h : pyStrip city ≠ "") :
    (Agent.get_weather_forecast false fetchF city days units).status = "error"
    ∧ (Agent.get_weather_forecast false fetchF city days units).error_message
        = some ("Weather forecast requires an API key. Please set OPENWEATHER_API_KEY "
          ++ "environment variable to get forecasts, or use get_weather() for current "
          ++ "conditions with demo data.") := by
  unfold Agent.get_weather_forecast WeatherService.get_weather_forecast
  rw [if_neg h]
  exact ⟨rfl, rfl⟩

/-- Witness for C6 at concrete inputs. -/
theorem claim_c6_forecast_requires_key_witness :
    pyStrip "Lagos" ≠ ""
    ∧ ((Agent.get_weather_forecast false (fun _ _ _ => none) "Lagos" 3 "metric").status = "error"
      ∧ (Agent.get_weather_forecast false (fun _ _ _ => none) "Lagos" 3 "metric").error_message
          = some ("Weather forecast requires an API key. Please set OPENWEATHER_API_KEY "
            ++ "environment variable to get forecasts, or use get_weather() for current "
            ++ "conditions with demo data.")) :=
  ⟨by decide, claim_c6_forecast_requires_key (fun _ _ _ => none) "Lagos" 3 "metric" (by decide)⟩

/-- Counterexample to claim C4: on the offline mock path, a successful
`get_weather` data payload does not contain the fields `temperature`,
`feels_like` or `units` (the source returns the raw mock dict, whose
temperature key is `temp`). -/
theorem claim_c4_counterexample :
    (Agent.get_weather false (fun _ _ => none) "london" "metric").status = "success"
    ∧ ((Agent.get_weather false (fun _ _ => none) "london" "metric").data.map
        (fun p => (p.lookup "temperature").isSome)) = some false
    ∧ ((Agent.get_weather false (fun _ _ => none) "london" "metric").data.map
        (fun p => (p.lookup "feels_like").isSome)) = some false
    ∧ ((Agent.get_weather false (fun _ _ => none) "london" "metric").data.map
        (fun p => (p.lookup "units").isSome)) = some false := by
  refine ⟨rfl, rfl, rfl, rfl⟩

/-- Claim C4 as amended: every success result of `get_weather` on the
live-provider path has a data payload containing the fields `temperature`,
`feels_like`, `condition`, `humidity`, `wind_speed` and `units` (with
`pressure` optional); a success result on the offline mock path instead
carries the raw mock-table entry, whose fields are exactly `temp`,
`condition`, `humidity` and `wind_speed`. -/
theorem claim_c4_weather_payload_fields :
    (∀ fetch city units p, (Agent.get_weather true fetch city units).data = some p →
        (p.lookup "temperature").isSome = true ∧ (p.lookup "feels_like").isSome = true
        ∧ (p.lookup "condition").isSome = true ∧ (p.lookup "humidity").isSome = true
        ∧ (p.lookup "wind_speed").isSome = true ∧ (p.lookup "units").isSome = true)
    ∧ (∀ fetch city units p, (Agent.get_weather false fetch city units).data = some p →
        p.map Prod.fst = ["temp", "condition", "humidity", "wind_speed"]) := by
  constructor
  · intro fetch city units p hp
    unfold Agent.get_weather at hp
    split at hp
    · exact absurd hp (by simp [errEnv])
    · unfold WeatherService.get_current_weather at hp
      dsimp only at hp
      split at hp
      · next hb => exact absurd hb (by decide)
      · split at hp
        · exact absurd hp (by simp [errEnv])
        · split at hp
          · exact absurd hp (by simp [errEnv])
          · unfold WeatherService.format_weather_response at hp
            split at hp
            · dsimp only at hp
              obtain rfl : _ = p := Option.some.inj hp
              exact ⟨rfl, rfl, rfl, rfl, rfl, rfl⟩
            · exact absurd hp (by simp [errEnv])
  · intro fetch city units p hp
    unfold Agent.get_weather at hp
    split at hp
    · exact absurd hp (by simp [errEnv])
    · unfold WeatherService.get_current_weather at hp
      rw [if_pos rfl] at hp
      unfold WeatherService.get_mock_weather at hp
      split at hp
      · obtain rfl : _ = p := Option.some.inj hp
        rfl
      · exact absurd hp (by simp [errEnv])

/-- Witness for the amended C4 on both paths at concrete inputs. -/
theorem claim_c4_weather_payload_fields_witness :
    ((Agent.get_weather true demoFetch "Lagos" "metric").data = some demoLivePayload)
    ∧ ((demoLivePayload.lookup "temperature").isSome = true
        ∧ (demoLivePayload.lookup "feels_like").isSome = true
        ∧ (demoLivePayload.lookup "condition").isSome = true
        ∧ (demoLivePayload.lookup "humidity").isSome = true
        ∧ (demoLivePayload.lookup "wind_speed").isSome = true
        ∧ (demoLivePayload.lookup "units").isSome = true)
    ∧ ((Agent.get_weather false demoFetch "london" "metric").data.map
        (fun p => p.map Prod.fst)) = some ["temp", "condition", "humidity", "wind_speed"] :=
  ⟨rfl, claim_c4_weather_payload_fields.1 demoFetch "Lagos" "metric" demoLivePayload rfl, rfl⟩

/-- Counterexample to claim C3: the source computes the local instant and
the UTC instant with two separate `datetime.now` calls, so when the second
clock read differs from the first (here by one second),
`local_time - utc_time` no longer equals `utc_offset`. -/
theorem claim_c3_counterexample :
    (Agent.get_current_time demoTimeEnv 0 1 "Lagos" "standard").status = "success"
    ∧ ((Agent.get_current_time demoTimeEnv 0 1 "Lagos" "standard").data.map
        (fun d => d.local_time - d.utc_time)) = some 3599
    ∧ ((Agent.get_current_time demoTimeEnv 0 1 "Lagos" "standard").data.map
        (fun d => d.utc_offset)) = some 3600 := by
  refine ⟨rfl, by decide, rfl⟩

/-- Claim C3 as amended: in a successful `get_current_time` result the
`local_time` and `utc_time` fields satisfy
`local_time - utc_time = utc_offset` provided the two clock reads the
source performs observe the same instant `t`; the source uses two separate
reads rather than a single one, so the equality is exact only when no time
elapses between them. -/
theorem claim_c3_offset_consistency (env : TimeEnv) (t : Int) (city fmt : String)
    (d : TimeData) (hd : (Agent.get_current_time env t t city fmt).data = some d) :
    d.local_time - d.utc_time = d.utc_offset := by
  unfold Agent.get_current_time at hd
  split at hd
  · exact absurd hd (by simp [errEnv])
  · unfold TimeService.get_current_time at hd
    split at hd
    · exact absurd hd (by simp [errEnv])
    · split at hd
      · exact absurd hd (by simp [errEnv])
      · dsimp only at hd
        obtain rfl : _ = d := Option.some.inj hd
        dsimp only
        omega

/-- Witness for the amended C3 with both clock reads at instant 5. -/
theorem claim_c3_offset_consistency_witness :
    ((Agent.get_current_time demoTimeEnv 5 5 "Lagos" "standard").data
      = some { city := "Lagos", timezone := "Africa/Lagos", local_time := 3605,
               utc_time := 5, formatted_time := 3605, day_of_week := 0,
               utc_offset := 3600 })
    ∧ (3605 : Int) - 5 = 3600 :=
  ⟨rfl, claim_c3_offset_consistency demoTimeEnv 5 "Lagos" "standard" _ rfl⟩

theorem time_difference_svc_eval (env : TimeEnv) (t : Int) (c1 c2 tz1 tz2 : String)
    (f1 f2 : Int → Int)
    (hr1 : env.resolveTz c1 = some tz1) (hr2 : env.resolveTz c2 = some tz2)
    (hf1 : env.tzdb tz1 = some f1) (hf2 : env.tzdb tz2 = some f2) :
    (TimeService.get_time_difference env t c1 c2).status = "success"
    ∧ (TimeService.get_time_difference env t c1 c2).data.map
        TimeService.TimeDiffData.difference_hours
        = some (hoursFromSeconds (f1 t) - hoursFromSeconds (f2 t)) := by
  unfold TimeService.get_time_difference
  rw [hr1]
  dsimp only
  rw [hr2]
  dsimp only
  rw [hf1, hf2]
  exact ⟨rfl, rfl⟩

/-- Claim C2: for two distinct (case-insensitively) resolvable cities,
evaluated against the same current instant `t`, the `difference_hours` of
`get_time_difference A B` is the negation of that of
`get_time_difference B A`. -/
theorem claim_c2_time_difference_antisymmetry (env : TimeEnv) (t : Int)
    (city1 city2 tz1 tz2 : String) (f1 f2 : Int → Int)
    (h1 : pyStrip city1 ≠ "") (h2 : pyStrip city2 ≠ "")
    (hne : pyLower (pyStrip city1) ≠ pyLower (pyStrip city2))
    (hr1 : env.resolveTz (pyStrip city1) = some tz1)
    (hr2 : env.resolveTz (pyStrip city2) = some tz2)
    (hf1 : env.tzdb tz1 = some f1) (hf2 : env.tzdb tz2 = some f2) :
    (Agent.get_time_difference env t city1 city2).status = "success"
    ∧ (Agent.get_time_difference env t city2 city1).status = "success"
    ∧ (Agent.get_time_difference env t city1 city2).data.map
        TimeService.TimeDiffData.difference_hours
        = some (hoursFromSeconds (f1 t) - hoursFromSeconds (f2 t))
    ∧ (Agent.get_time_difference env t city2 city1).data.map
        TimeService.TimeDiffData.difference_hours
        = some (-(hoursFromSeconds (f1 t) - hoursFromSeconds (f2 t))) := by
  have hfwd : Agent.get_time_difference env t city1 city2
      = TimeService.get_time_difference env t (pyStrip city1) (pyStrip city2) := by
    unfold Agent.get_time_difference
    rw [if_neg h1, if_neg h2, if_neg hne]
  have hbwd : Agent.get_time_difference env t city2 city1
      = TimeService.get_time_difference env t (pyStrip city2) (pyStrip city1) := by
    unfold Agent.get_time_difference
    rw [if_neg h2, if_neg h1, if_neg (fun he => hne he.symm)]
  have e1 := time_difference_svc_eval env t (pyStrip city1) (pyStrip city2) tz1 tz2 f1 f2
    hr1 hr2 hf1 hf2
  have e2 := time_difference_svc_eval env t (pyStrip city2) (pyStrip city1) tz2 tz1 f2 f1
    hr2 hr1 hf2 hf1
  rw [hfwd, hbwd]
  refine ⟨e1.1, e2.1, e1.2, ?_⟩
  rw [e2.2, neg_sub]

/-- Witness for C2: Lagos (UTC+1) and London (UTC+0) in `demoTimeEnv`. -/
theorem claim_c2_time_difference_antisymmetry_witness :
    (Agent.get_time_difference demoTimeEnv 0 "Lagos" "London").status = "success"
    ∧ (Agent.get_time_difference demoTimeEnv 0 "London" "Lagos").status = "success"
    ∧ (Agent.get_time_difference demoTimeEnv 0 "Lagos" "London").data.map
        TimeService.TimeDiffData.difference_hours
        = some (hoursFromSeconds 3600 - hoursFromSeconds 0)
    ∧ (Agent.get_time_difference demoTimeEnv 0 "London" "Lagos").data.map
        TimeService.TimeDiffData.difference_hours
        = some (-(hoursFromSeconds 3600 - hoursFromSeconds 0)) :=
  claim_c2_time_difference_antisymmetry demoTimeEnv 0 "Lagos" "London"
    "Africa/Lagos" "Europe/London" (fun _ => 3600) (fun _ => 0)
    (by decide) (by decide) (by decide) rfl rfl rfl rfl

/-- Claim C7: two non-empty city strings that agree case-insensitively
after trimming short-circuit `get_time_difference` to a zero-difference
success, and the result does not depend on the resolution environment or
the clock (no timezone resolution is invoked). -/
theorem claim_c7_same_city_short_circuit (env : TimeEnv) (t : Int) (city1 city2 : String)
    (h1 : pyStrip city1 ≠ "") (h2 : pyStrip city2 ≠ "")
    (heq : pyLower (pyStrip city1) = pyLower (pyStrip city2)) :
    (Agent.get_time_difference env t city1 city2).status = "success"
    ∧ (Agent.get_time_difference env t city1 city2).data.map
        TimeService.TimeDiffData.difference_hours = some 0
    ∧ ∀ (env2 : TimeEnv) (t2 : Int),
        Agent.get_time_difference env2 t2 city1 city2
          = Agent.get_time_difference env t city1 city2 := by
  unfold Agent.get_time_difference
  rw [if_neg h1, if_neg h2, if_pos heq]
  refine ⟨rfl, rfl, fun env2 t2 => ?_⟩
  rw [if_neg h1, if_neg h2, if_pos heq]

/-- Witness for C7 on `"Lagos"` vs `" LAGOS "`, also instantiating the
environment-independence conjunct at a second, empty environment. -/
theorem claim_c7_same_city_short_circuit_witness :
    (Agent.get_time_difference demoTimeEnv 0 "Lagos" " LAGOS ").status = "success"
    ∧ (Agent.get_time_difference demoTimeEnv 0 "Lagos" " LAGOS ").data.map
        TimeService.TimeDiffData.difference_hours = some 0
    ∧ Agent.get_time_difference
        { resolveTz := fun _ => none, tzdb := fun _ => none } 999 "Lagos" " LAGOS "
        = Agent.get_time_difference demoTimeEnv 0 "Lagos" " LAGOS " :=
  ⟨(claim_c7_same_city_short_circuit demoTimeEnv 0 "Lagos" " LAGOS "
      (by decide) (by decide) (by decide)).1,
   (claim_c7_same_city_short_circuit demoTimeEnv 0 "Lagos" " LAGOS "
      (by decide) (by decide) (by decide)).2.1,
   (claim_c7_same_city_short_circuit demoTimeEnv 0 "Lagos" " LAGOS "
      (by decide) (by decide) (by decide)).2.2
     { resolveTz := fun _ => none, tzdb := fun _ => none } 999⟩

/-- Claim C10: a successful non-short-circuit `get_time_difference`
computes `difference_hours` as city1's UTC offset minus city2's UTC offset
in fractional hours, both taken at the same instant `t`, and the
difference is positive exactly when city1 is the city the report renders
as ahead (line 128 of `time_service.py`, embedded as
`TimeService.aheadCity`). -/
theorem claim_c10_difference_offset_semantics (env : TimeEnv) (t : Int)
    (city1 city2 tz1 tz2 : String) (f1 f2 : Int → Int)
    (h1 : pyStrip city1 ≠ "") (h2 : pyStrip city2 ≠ "")
    (hne : pyLower (pyStrip city1) ≠ pyLower (pyStrip city2))
    (hr1 : env.resolveTz (pyStrip city1) = some tz1)
    (hr2 : env.resolveTz (pyStrip city2) = some tz2)
    (hf1 : env.tzdb tz1 = some f1) (hf2 : env.tzdb tz2 = some f2) :
    (Agent.get_time_difference env t city1 city2).data.map
        TimeService.TimeDiffData.difference_hours
        = some (hoursFromSeconds (f1 t) - hoursFromSeconds (f2 t))
    ∧ (0 < hoursFromSeconds (f1 t) - hoursFromSeconds (f2 t)
        ↔ TimeService.aheadCity (pyStrip city1) (pyStrip city2)
            (hoursFromSeconds (f1 t) - hoursFromSeconds (f2 t))
          = pyTitle (pyStrip city1)) := by
  have hfwd : Agent.get_time_difference env t city1 city2
      = TimeService.get_time_difference env t (pyStrip city1) (pyStrip city2) := by
    unfold Agent.get_time_difference
    rw [if_neg h1, if_neg h2, if_neg hne]
  have e1 := time_difference_svc_eval env t (pyStrip city1) (pyStrip city2) tz1 tz2 f1 f2
    hr1 hr2 hf1 hf2
  rw [hfwd]
  refine ⟨e1.2, ?_⟩
  unfold TimeService.aheadCity
  constructor
  · intro hpos
    rw [if_pos hpos]
  · intro hsel
    by_contra hneg
    rw [if_neg hneg] at hsel
    exact pyTitle_ne_of_pyLower_ne (fun he => hne he.symm) hsel

/-- Witness for C10: Lagos ahead of London by one hour in `demoTimeEnv`. -/
theorem claim_c10_difference_offset_semantics_witness :
    (Agent.get_time_difference demoTimeEnv 7 "Lagos" "London").data.map
        TimeService.TimeDiffData.difference_hours
        = some (hoursFromSeconds 3600 - hoursFromSeconds 0)
    ∧ (0 < hoursFromSeconds 3600 - hoursFromSeconds 0
        ↔ TimeService.aheadCity (pyStrip "Lagos") (pyStrip "London")
            (hoursFromSeconds 3600 - hoursFromSeconds 0) = pyTitle (pyStrip "Lagos")) :=
  claim_c10_difference_offset_semantics demoTimeEnv 7 "Lagos" "London"
    "Africa/Lagos" "Europe/London" (fun _ => 3600) (fun _ => 0)
    (by decide) (by decide) (by decide) rfl rfl rfl rfl

theorem time_svc_eval_fail (env : TimeEnv) (t1 t2 : Int) (city fmt : String)
    (h : cityTimeOk env city = false) :
    TimeService.get_current_time env t1 t2 city fmt = errEnv (cityTimeErrMsg env city) := by
  unfold cityTimeOk at h
  unfold TimeService.get_current_time cityTimeErrMsg
  cases hr : env.resolveTz city with
  | none => rfl
  | some tz =>
    rw [hr] at h
    dsimp only at h
    dsimp only
    cases hf : env.tzdb tz with
    | none => rfl
    | some f =>
      rw [hf] at h
      exact absurd h (by simp)

theorem time_svc_eval_ok (env : TimeEnv) (t1 t2 : Int) (city fmt : String)
    (h : cityTimeOk env city = true) :
    (TimeService.get_current_time env t1 t2 city fmt).status = "success"
    ∧ ∃ d, (TimeService.get_current_time env t1 t2 city fmt).data = some d := by
  unfold cityTimeOk at h
  unfold TimeService.get_current_time
  cases hr : env.resolveTz city with
  | none => rw [hr] at h; exact absurd h (by simp)
  | some tz =>
    rw [hr] at h
    dsimp only at h
    dsimp only
    cases hf : env.tzdb tz with
    | none => rw [hf] at h; exact absurd h (by simp)
    | some f => exact ⟨rfl, _, rfl⟩

theorem worldClockLists_spec (env : TimeEnv) (clk : ℕ → Int) (cities : List String) :
    ∀ i : ℕ,
      (TimeService.worldClockLists env clk i cities).1.map TimeService.WCEntry.city
        = (cities.filter (fun c => cityTimeOk env c)).map pyTitle
      ∧ (TimeService.worldClockLists env clk i cities).2
        = (cities.filter (fun c => !cityTimeOk env c)).map
            (fun c => c ++ ": " ++ cityTimeErrMsg env c) := by
  induction cities with
  | nil => intro i; exact ⟨rfl, rfl⟩
  | cons c cs ih =>
    intro i
    unfold TimeService.worldClockLists
    cases hok : cityTimeOk env c with
    | false =>
      rw [time_svc_eval_fail env (clk (2 * i)) (clk (2 * i + 1)) c "standard" hok]
      simp only [errEnv, List.filter_cons, hok]
      refine ⟨(ih (i + 1)).1, ?_⟩
      simp only [Option.getD_some, List.map_cons]
      exact congrArg _ (ih (i + 1)).2
    | true =>
      obtain ⟨hs, d, hd⟩ := time_svc_eval_ok env (clk (2 * i)) (clk (2 * i + 1)) c "standard" hok
      simp only [hs, hd, beq_self_eq_true, List.filter_cons, hok, List.map_cons]
      exact ⟨congrArg _ (ih (i + 1)).1, (ih (i + 1)).2⟩

theorem world_clock_svc_spec (env : TimeEnv) (clk : ℕ → Int) (cities : List String)
    (hne : cities ≠ []) :
    ((TimeService.get_world_clock env clk cities).status = "error"
      ↔ ∀ c ∈ cities, cityTimeOk env c = false)
    ∧ ((TimeService.get_world_clock env clk cities).status = "success"
      ↔ ∃ c ∈ cities, cityTimeOk env c = true)
    ∧ (∀ d, (TimeService.get_world_clock env clk cities).data = some d →
        d.results.map TimeService.WCEntry.city
          = (cities.filter (fun c => cityTimeOk env c)).map pyTitle
        ∧ d.errors = (cities.filter (fun c => !cityTimeOk env c)).map
            (fun c => c ++ ": " ++ cityTimeErrMsg env c)
        ∧ d.total_cities = cities.length
        ∧ d.successful_cities = d.results.length) := by
  have hspec := worldClockLists_spec env clk cities 0
  have hempty : (TimeService.worldClockLists env clk 0 cities).1 = []
      ↔ ∀ c ∈ cities, cityTimeOk env c = false := by
    constructor
    · intro h
      have := hspec.1
      rw [h] at this
      intro c hc
      by_contra hcc
      have hmem : pyTitle c ∈ (cities.filter (fun x => cityTimeOk env x)).map pyTitle :=
        List.mem_map_of_mem _ (List.mem_filter.mpr ⟨hc, by simpa using hcc⟩)
      rw [← this] at hmem
      exact absurd hmem (by simp)
    · intro h
      have hf : cities.filter (fun c => cityTimeOk env c) = [] :=
        List.filter_eq_nil_iff.mpr (fun a ha => by simp [h a ha])
      have := hspec.1
      rw [hf] at this
      exact List.map_eq_nil_iff.mp this
  unfold TimeService.get_world_clock
  rw [if_neg (by simpa using hne)]
  dsimp only
  split
  · next hnil =>
    rw [List.isEmpty_iff] at hnil
    refine ⟨⟨fun _ => hempty.mp hnil, fun _ => rfl⟩, ?_, ?_⟩
    · constructor
      · intro hcontra
        exact absurd hcontra (by simp [errEnv])
      · rintro ⟨c, hc, hcc⟩
        have := hempty.mp hnil c hc
        rw [this] at hcc
        exact absurd hcc (by simp)
    · intro d hd
      exact absurd hd (by simp [errEnv])
  · next hnil =>
    rw [List.isEmpty_iff] at hnil
    refine ⟨⟨fun hcontra => absurd hcontra (by simp), fun hall => absurd (hempty.mpr hall) hnil⟩,
      ⟨fun _ => ?_, fun _ => rfl⟩, ?_⟩
    · by_contra hnone
      push_neg at hnone
      exact hnil (hempty.mpr (fun c hc => by simpa using hnone c hc))
    · intro d hd
      obtain rfl : _ = d := Option.some.inj hd
      exact ⟨hspec.1, hspec.2, rfl, rfl⟩

/-- Claim C8: for a non-empty city list, the world clock service returns
status `error` exactly when every city's time lookup fails; otherwise it
returns success with one `results` entry per succeeding city (in input
order) and one `errors` entry per failing city, so one failure never
aborts the call. -/
theorem claim_c8_world_clock_partial_failure (env : TimeEnv) (clk : ℕ → Int)
    (cities : List String) (hne : cities ≠ []) :
    ((TimeService.get_world_clock env clk cities).status = "error"
      ↔ ∀ c ∈ cities, cityTimeOk env c = false)
    ∧ ((TimeService.get_world_clock env clk cities).status = "success"
      ↔ ∃ c ∈ cities, cityTimeOk env c = true)
    ∧ (∀ d, (TimeService.get_world_clock env clk cities).data = some d →
        d.results.map TimeService.WCEntry.city
          = (cities.filter (fun c => cityTimeOk env c)).map pyTitle
        ∧ d.errors = (cities.filter (fun c => !cityTimeOk env c)).map
            (fun c => c ++ ": " ++ cityTimeErrMsg env c)) := by
  obtain ⟨a, b, c⟩ := world_clock_svc_spec env clk cities hne
  exact ⟨a, b, fun d hd => ⟨(c d hd).1, (c d hd).2.1⟩⟩

/-- Witness for C8: one resolvable and one unresolvable city. -/
theorem claim_c8_world_clock_partial_failure_witness :
    (((TimeService.get_world_clock demoTimeEnv (fun _ => 0) ["Lagos", "Nowhere"]).status = "error")
      ↔ ∀ c ∈ (["Lagos", "Nowhere"] : List String), cityTimeOk demoTimeEnv c = false)
    ∧ ([({ city := "Lagos", time := 3600, timezone := "Africa/Lagos", day := 0 } :
          TimeService.WCEntry)].map TimeService.WCEntry.city
        = ((["Lagos", "Nowhere"] : List String).filter
            (fun c => cityTimeOk demoTimeEnv c)).map pyTitle)
    ∧ ((["Nowhere: Could not determine timezone for 'Nowhere'. Please check the city name and try again."] : List String)
        = ((["Lagos", "Nowhere"] : List String).filter (fun c => !cityTimeOk demoTimeEnv c)).map
            (fun c => c ++ ": " ++ cityTimeErrMsg demoTimeEnv c)) :=
  let hc8 := claim_c8_world_clock_partial_failure demoTimeEnv (fun _ => 0)
    ["Lagos", "Nowhere"] (by decide)
  ⟨hc8.1, (hc8.2.2 _ rfl).1, (hc8.2.2 _ rfl).2⟩

/-- Claim C9: for a list of more than 10 valid cities, `get_world_clock`
runs the world-clock service on the first 10 trimmed cities only, and when
that result is successful the returned report is the service report with a
truncation note -- naming 10 and the original count -- appended after the
per-city listing. -/
theorem claim_c9_world_clock_truncation (env : TimeEnv) (clk : ℕ → Int) (cities : List String)
    (hv : ∀ c ∈ cities, pyStrip c ≠ "") (hlen : 10 < cities.length) :
    (Agent.get_world_clock env clk cities
      = (if (TimeService.get_world_clock env clk ((cities.map pyStrip).take 10)).status
            = "success"
         then { TimeService.get_world_clock env clk ((cities.map pyStrip).take 10) with
                report := (TimeService.get_world_clock env clk
                    ((cities.map pyStrip).take 10)).report.map
                  (fun r => r ++ "\n\nNote: Limited to first 10 cities out of "
                    ++ toString cities.length ++ " provided.") }
         else TimeService.get_world_clock env clk ((cities.map pyStrip).take 10)))
    ∧ ((∃ c ∈ cities.take 10, cityTimeOk env (pyStrip c) = true) →
        (Agent.get_world_clock env clk cities).status = "success"
        ∧ ∀ d, (Agent.get_world_clock env clk cities).data = some d →
            d.total_cities = 10) := by
  have hfilter : cities.filter (fun c => pyStrip c != "") = cities :=
    List.filter_eq_self.mpr (fun a ha => by simpa [bne_iff_ne] using hv a ha)
  have hne : cities ≠ [] := by
    intro hnil
    rw [hnil] at hlen
    simp at hlen
  have htake10 : (cities.map pyStrip).take 10 = (cities.take 10).map pyStrip :=
    (List.map_take pyStrip cities 10).symm
  have htne : (cities.map pyStrip).take 10 ≠ [] := by
    intro hnil
    have h0 : ((cities.map pyStrip).take 10).length = 0 := by rw [hnil]; rfl
    rw [List.length_take, List.length_map] at h0
    omega
  have heq : Agent.get_world_clock env clk cities
      = (if (TimeService.get_world_clock env clk ((cities.map pyStrip).take 10)).status
            = "success"
         then { TimeService.get_world_clock env clk ((cities.map pyStrip).take 10) with
                report := (TimeService.get_world_clock env clk
                    ((cities.map pyStrip).take 10)).report.map
                  (fun r => r ++ "\n\nNote: Limited to first 10 cities out of "
                    ++ toString cities.length ++ " provided.") }
         else TimeService.get_world_clock env clk ((cities.map pyStrip).take 10)) := by
    unfold Agent.get_world_clock
    rw [if_neg (by simp [List.isEmpty_iff, hne])]
    dsimp only
    rw [hfilter]
    rw [if_neg (by simp [List.isEmpty_iff, List.map_eq_nil_iff, hne]),
      if_pos (by simpa [List.length_map] using hlen)]
  refine ⟨heq, fun hok => ?_⟩
  obtain ⟨c0, hc0mem, hc0ok⟩ := hok
  have hsvc : (TimeService.get_world_clock env clk ((cities.map pyStrip).take 10)).status
      = "success" := by
    refine (world_clock_svc_spec env clk _ htne).2.1.mpr ⟨pyStrip c0, ?_, hc0ok⟩
    rw [htake10]
    exact List.mem_map_of_mem _ hc0mem
  rw [heq, if_pos hsvc]
  refine ⟨hsvc, fun d hd => ?_⟩
  have htot := ((world_clock_svc_spec env clk _ htne).2.2 d hd).2.2.1
  rw [htot, List.length_take, List.length_map]
  omega

/-- Witness for C9: twelve valid cities, truncated to ten. -/
theorem claim_c9_world_clock_truncation_witness :
    (Agent.get_world_clock demoTimeEnv (fun _ => 0) demo12
      = (if (TimeService.get_world_clock demoTimeEnv (fun _ => 0)
              ((demo12.map pyStrip).take 10)).status = "success"
         then { TimeService.get_world_clock demoTimeEnv (fun _ => 0)
                  ((demo12.map pyStrip).take 10) with
                report := (TimeService.get_world_clock demoTimeEnv (fun _ => 0)
                    ((demo12.map pyStrip).take 10)).report.map
                  (fun r => r ++ "\n\nNote: Limited to first 10 cities out of "
                    ++ toString demo12.length ++ " provided.") }
         else TimeService.get_world_clock demoTimeEnv (fun _ => 0)
                ((demo12.map pyStrip).take 10)))
    ∧ ((Agent.get_world_clock demoTimeEnv (fun _ => 0) demo12).status = "success"
        ∧ ∀ d, (Agent.get_world_clock demoTimeEnv (fun _ => 0) demo12).data = some d →
            d.total_cities = 10) :=
  let h := claim_c9_world_clock_truncation demoTimeEnv (fun _ => 0) demo12
    (by decide) (by decide)
  ⟨h.1, h.2 (by decide)⟩

end MultiToolAgent
